import Mathlib

/-!
Verification development for the smart-smoker streaming pipeline
(`bbq_producer.py`, `consumer_smoker.py`, `consumer_food_a.py`,
`consumer_food_b.py`, `etexter.py`).

The Python scripts are shallowly embedded here:

* Temperatures (Python floats holding decimal sensor readings) are
  modelled as rationals.
* Each consumer keeps a `collections.deque(maxlen=N)` of recent
  temperatures; the deque is modelled as a `List ℚ` whose head is the
  oldest entry (the deque's left end).
* The callback bodies are modelled as pure step functions; broker
  acknowledgement and logging are modelled where a claim needs them.
* `json.loads` and Python `float()` are modelled by executable parsers
  below; SMTP dispatch is modelled by its outcome environment.
-/

namespace SmartSmoker

/-- Constant from `consumer_smoker.py`: `DEQUE_MAX_LENGTH = 5`. -/
def SMOKER_DEQUE_MAX_LENGTH : Nat := 5

/-- Constant from `consumer_smoker.py`: `TEMPERATURE_DROP_THRESHOLD = 15`. -/
def TEMPERATURE_DROP_THRESHOLD : ℚ := 15

/-- Constant from `consumer_food_a.py` / `consumer_food_b.py`:
`DEQUE_MAX_LENGTH = 20`. -/
def FOOD_DEQUE_MAX_LENGTH : Nat := 20

/-- Constant from `consumer_food_a.py` / `consumer_food_b.py`:
`TEMPERATURE_CHANGE_THRESHOLD = 1`. -/
def TEMPERATURE_CHANGE_THRESHOLD : ℚ := 1

/-- Model of `deque.append` for a `collections.deque(maxlen=maxlen)`:
the value is appended at the right end and, if the length would exceed
`maxlen`, entries are discarded from the left end. -/
def dequeAppend {α : Type} (maxlen : Nat) (w : List α) (t : α) : List α :=
  let w1 := w ++ [t]
  if maxlen < w1.length then w1.drop (w1.length - maxlen) else w1

/-- Model of Python's `max` over a non-empty list of floats
(`max(temperature_readings)` in the food consumers). The `[]` case is
never reached by the callbacks, which evaluate only on full windows. -/
def pyMax : List ℚ → ℚ
  | [] => 0
  | x :: xs => xs.foldl max x

/-- Model of Python's `min` over a non-empty list of floats
(`min(temperature_readings)` in the food consumers). -/
def pyMin : List ℚ → ℚ
  | [] => 0
  | x :: xs => xs.foldl min x

/-- The smoker anomaly predicate, from `consumer_smoker.py`:
`temp_diff = temperature_readings[0] - temperature_readings[-1]`,
alert when `temp_diff >= TEMPERATURE_DROP_THRESHOLD`.  `deque[0]` is the
oldest entry, `deque[-1]` the newest. -/
def smokerCheck (w : List ℚ) : Bool :=
  decide (w.getD 0 0 - w.getD (w.length - 1) 0 ≥ TEMPERATURE_DROP_THRESHOLD)

/-- The food stall predicate, from `consumer_food_a.py` and
`consumer_food_b.py`:
`temp_diff = max(temperature_readings) - min(temperature_readings)`,
alert when `temp_diff <= TEMPERATURE_CHANGE_THRESHOLD`. -/
def foodCheck (w : List ℚ) : Bool :=
  decide (pyMax w - pyMin w ≤ TEMPERATURE_CHANGE_THRESHOLD)

/-- The observable outcome of one callback invocation on the window:
`appended` is the deque immediately after `temperature_readings.append(...)`,
`window` is the deque when the callback returns (after the conditional
`popleft`), `evaluated` records whether the `len(...) == DEQUE_MAX_LENGTH`
branch was taken, and `alerted` whether the anomaly predicate held there. -/
structure StepResult where
  appended : List ℚ
  window : List ℚ
  evaluated : Bool
  alerted : Bool
  deriving DecidableEq

instance : Inhabited StepResult := ⟨⟨[], [], false, false⟩⟩

/-- One window update of a consumer callback, common to all three
consumers (parameterised by deque capacity and anomaly predicate):
append the temperature; if the deque is exactly full, evaluate the
predicate and then pop the oldest entry from the left. -/
def detectorStep (cap : Nat) (check : List ℚ → Bool) (w : List ℚ) (t : ℚ) :
    StepResult :=
  let w1 := dequeAppend cap w t
  if w1.length = cap then
    { appended := w1, window := w1.tail, evaluated := true, alerted := check w1 }
  else
    { appended := w1, window := w1, evaluated := false, alerted := false }

/-- The window contents after sequentially processing the readings `rs`
starting from window `w`. -/
def runWindow (cap : Nat) (check : List ℚ → Bool) (w : List ℚ) (rs : List ℚ) :
    List ℚ :=
  rs.foldl (fun w t => (detectorStep cap check w t).window) w

/-- The per-insertion trace of a sequential run: one `StepResult` for each
received reading, in order. -/
def detectorTrace (cap : Nat) (check : List ℚ → Bool) :
    List ℚ → List ℚ → List StepResult
  | _, [] => []
  | w, t :: ts =>
    let r := detectorStep cap check w t
    r :: detectorTrace cap check r.window ts

/-- The step performed at the `i`-th insertion (0-indexed) when the
readings `rs` are fed, in order, to a detector that starts empty. -/
def stepAt (cap : Nat) (check : List ℚ → Bool) (rs : List ℚ) (i : Nat) :
    StepResult :=
  detectorStep cap check (runWindow cap check [] (rs.take i)) (rs.getD i 0)

lemma runWindow_nil (cap : Nat) (check : List ℚ → Bool) (w : List ℚ) :
    runWindow cap check w [] = w := rfl

lemma runWindow_concat (cap : Nat) (check : List ℚ → Bool) (w : List ℚ)
    (rs : List ℚ) (t : ℚ) :
    runWindow cap check w (rs ++ [t]) =
      (detectorStep cap check (runWindow cap check w rs) t).window := by
  simp [runWindow, List.foldl_append]

lemma dequeAppend_of_lt {α : Type} (maxlen : Nat) (w : List α) (t : α)
    (h : w.length < maxlen) : dequeAppend maxlen w t = w ++ [t] := by
  have hc : ¬ maxlen < w.length + 1 := by omega
  simp [dequeAppend, hc]

/-- The callback step when the append fills the deque exactly: the
predicate is evaluated on the full deque and the oldest entry is popped. -/
lemma detectorStep_eq_of_full (cap : Nat) (check : List ℚ → Bool)
    (w : List ℚ) (t : ℚ) (h : w.length + 1 = cap) :
    detectorStep cap check w t =
      { appended := w ++ [t], window := (w ++ [t]).tail, evaluated := true,
        alerted := check (w ++ [t]) } := by
  have hlt : w.length < cap := by omega
  have happ : dequeAppend cap w t = w ++ [t] := dequeAppend_of_lt _ _ _ hlt
  have hfull : (w ++ [t]).length = cap := by
    simp only [List.length_append, List.length_cons, List.length_nil]
    omega
  simp [detectorStep, happ, hfull]

/-- The callback step when the deque is still short after the append: no
evaluation, no eviction. -/
lemma detectorStep_eq_of_notfull (cap : Nat) (check : List ℚ → Bool)
    (w : List ℚ) (t : ℚ) (hlt : w.length < cap) (h : w.length + 1 ≠ cap) :
    detectorStep cap check w t =
      { appended := w ++ [t], window := w ++ [t], evaluated := false,
        alerted := false } := by
  have happ : dequeAppend cap w t = w ++ [t] := dequeAppend_of_lt _ _ _ hlt
  have hfull : ¬ (w ++ [t]).length = cap := by
    simp only [List.length_append, List.length_cons, List.length_nil]
    omega
  simp [detectorStep, happ, hfull, h]

/-- Closed form for the window after a whole run from the empty deque:
the run keeps exactly the most recent `cap - 1` readings (or all of them
while fewer have arrived). -/
lemma runWindow_closed (cap : Nat) (check : List ℚ → Bool) (hcap : 1 ≤ cap)
    (l : List ℚ) :
    runWindow cap check [] l = l.drop (l.length + 1 - cap) := by
  induction l using List.reverseRecOn with
  | nil => simp [runWindow]
  | append_singleton l t ih =>
    rw [runWindow_concat, ih]
    have hlen : (l.drop (l.length + 1 - cap)).length =
        l.length - (l.length + 1 - cap) := List.length_drop _ _
    have hlen2 : (l ++ [t]).length = l.length + 1 := by
      simp only [List.length_append, List.length_cons, List.length_nil]
    by_cases hfull : (l.drop (l.length + 1 - cap)).length + 1 = cap
    · rw [detectorStep_eq_of_full cap check _ t hfull]
      rcases Nat.eq_or_lt_of_le hcap with h1 | h2
      · -- cap = 1 : the deque is emptied again immediately
        have hw : l.drop (l.length + 1 - cap) = [] :=
          List.eq_nil_of_length_eq_zero (by omega)
        rw [hw]
        have hd : (l ++ [t]).length + 1 - cap = (l ++ [t]).length := by omega
        rw [hd, List.drop_length]
        simp
      · -- cap ≥ 2 : pop one element from the left
        have hwne : l.drop (l.length + 1 - cap) ≠ [] := by
          intro hnil
          have := congrArg List.length hnil
          simp only [List.length_nil] at this
          omega
        rw [List.tail_append_of_ne_nil hwne, List.tail_drop]
        have harith : (l ++ [t]).length + 1 - cap = l.length + 1 - cap + 1 := by
          omega
        rw [harith, List.drop_append_of_le_length (by omega)]
    · have hlt : (l.drop (l.length + 1 - cap)).length < cap := by omega
      rw [detectorStep_eq_of_notfull cap check _ t hlt hfull]
      have h0 : l.length + 1 - cap = 0 := by omega
      have h1 : (l ++ [t]).length + 1 - cap = 0 := by omega
      rw [h0, h1]
      simp

lemma detectorStep_appended (cap : Nat) (check : List ℚ → Bool)
    (w : List ℚ) (t : ℚ) :
    (detectorStep cap check w t).appended = dequeAppend cap w t := by
  unfold detectorStep
  dsimp only
  split <;> rfl

lemma take_succ_getD (rs : List ℚ) (i : Nat) (h : i < rs.length) :
    rs.take (i + 1) = rs.take i ++ [rs.getD i 0] := by
  rw [List.take_succ, List.getElem?_eq_getElem h]
  simp [List.getD_eq_getElem?_getD, List.getElem?_eq_getElem h]

lemma getD_drop (l : List ℚ) (n m : Nat) (d : ℚ) :
    (l.drop n).getD m d = l.getD (n + m) d := by
  simp [List.getD_eq_getElem?_getD, List.getElem?_drop]

lemma getD_take {l : List ℚ} {n m : Nat} (h : m < n) (d : ℚ) :
    (l.take n).getD m d = l.getD m d := by
  simp [List.getD_eq_getElem?_getD, List.getElem?_take, h]

/-- The state fed to the `i`-th insertion has the closed form of
`runWindow_closed`. -/
lemma stepAt_eq (cap : Nat) (check : List ℚ → Bool) (rs : List ℚ) (i : Nat)
    (hcap : 1 ≤ cap) (hi : i < rs.length) :
    stepAt cap check rs i =
      detectorStep cap check ((rs.take i).drop (i + 1 - cap)) (rs.getD i 0) := by
  unfold stepAt
  rw [runWindow_closed cap check hcap]
  congr 2
  rw [List.length_take]
  omega

lemma stepAt_state_length (cap : Nat) (_check : List ℚ → Bool) (rs : List ℚ)
    (i : Nat) (hi : i < rs.length) :
    ((rs.take i).drop (i + 1 - cap)).length = min i (cap - 1) := by
  rw [List.length_drop, List.length_take]
  omega

/-- The deque right after the `i`-th append holds exactly the most recent
`min (i+1) cap` readings. -/
lemma stepAt_appended_eq (cap : Nat) (check : List ℚ → Bool) (rs : List ℚ)
    (i : Nat) (hcap : 1 ≤ cap) (hi : i < rs.length) :
    (stepAt cap check rs i).appended = (rs.take (i + 1)).drop (i + 1 - cap) := by
  rw [stepAt_eq cap check rs i hcap hi, detectorStep_appended]
  have hwlen := stepAt_state_length cap check rs i hi
  rw [dequeAppend_of_lt _ _ _ (by omega), take_succ_getD rs i hi,
    List.drop_append_of_le_length (by rw [List.length_take]; omega)]

lemma stepAt_appended_length (cap : Nat) (check : List ℚ → Bool) (rs : List ℚ)
    (i : Nat) (hcap : 1 ≤ cap) (hi : i < rs.length) :
    (stepAt cap check rs i).appended.length = min (i + 1) cap := by
  rw [stepAt_appended_eq cap check rs i hcap hi, List.length_drop,
    List.length_take]
  omega

lemma stepAt_evaluated (cap : Nat) (check : List ℚ → Bool) (rs : List ℚ)
    (i : Nat) (hcap : 1 ≤ cap) (hi : i < rs.length) :
    (stepAt cap check rs i).evaluated = decide (cap ≤ i + 1) := by
  rw [stepAt_eq cap check rs i hcap hi]
  have hwlen := stepAt_state_length cap check rs i hi
  by_cases hc : cap ≤ i + 1
  · rw [detectorStep_eq_of_full cap check _ _ (by omega)]
    simp [hc]
  · rw [detectorStep_eq_of_notfull cap check _ _ (by omega) (by omega)]
    simp [hc]

lemma stepAt_alerted_of_full (cap : Nat) (check : List ℚ → Bool) (rs : List ℚ)
    (i : Nat) (hcap : 1 ≤ cap) (hi : i < rs.length) (hc : cap ≤ i + 1) :
    (stepAt cap check rs i).alerted =
      check ((rs.take (i + 1)).drop (i + 1 - cap)) := by
  rw [stepAt_eq cap check rs i hcap hi]
  have hwlen := stepAt_state_length cap check rs i hi
  rw [detectorStep_eq_of_full cap check _ _ (by omega)]
  have hchg : (rs.take i).drop (i + 1 - cap) ++ [rs.getD i 0] =
      (rs.take (i + 1)).drop (i + 1 - cap) := by
    rw [take_succ_getD rs i hi,
      List.drop_append_of_le_length (by rw [List.length_take]; omega)]
  rw [hchg]

lemma stepAt_alerted_of_notfull (cap : Nat) (check : List ℚ → Bool)
    (rs : List ℚ) (i : Nat) (hcap : 1 ≤ cap) (hi : i < rs.length)
    (hc : i + 1 < cap) :
    (stepAt cap check rs i).alerted = false := by
  rw [stepAt_eq cap check rs i hcap hi]
  have hwlen := stepAt_state_length cap check rs i hi
  rw [detectorStep_eq_of_notfull cap check _ _ (by omega) (by omega)]

lemma stepAt_window_of_full (cap : Nat) (check : List ℚ → Bool) (rs : List ℚ)
    (i : Nat) (hcap : 1 ≤ cap) (hi : i < rs.length) (hc : cap ≤ i + 1) :
    (stepAt cap check rs i).window = (stepAt cap check rs i).appended.tail := by
  rw [stepAt_eq cap check rs i hcap hi]
  have hwst := stepAt_state_length cap check rs i hi
  rw [detectorStep_eq_of_full cap check _ _ (by omega)]

lemma stepAt_window_of_notfull (cap : Nat) (check : List ℚ → Bool)
    (rs : List ℚ) (i : Nat) (hcap : 1 ≤ cap) (hi : i < rs.length)
    (hc : i + 1 < cap) :
    (stepAt cap check rs i).window = (stepAt cap check rs i).appended := by
  rw [stepAt_eq cap check rs i hcap hi]
  have hwst := stepAt_state_length cap check rs i hi
  rw [detectorStep_eq_of_notfull cap check _ _ (by omega) (by omega)]

lemma runWindow_cons (cap : Nat) (check : List ℚ → Bool) (w : List ℚ)
    (t : ℚ) (ts : List ℚ) :
    runWindow cap check w (t :: ts) =
      runWindow cap check (detectorStep cap check w t).window ts := rfl

/-- The `i`-th entry of the sequential trace is exactly `stepAt` applied to
the prefix state: the per-insertion view used by the theorems below is the
view of the actual stream processing loop. -/
lemma detectorTrace_getD (cap : Nat) (check : List ℚ → Bool) (rs : List ℚ) :
    ∀ (w : List ℚ) (i : Nat), i < rs.length →
      (detectorTrace cap check w rs).getD i default =
        detectorStep cap check (runWindow cap check w (rs.take i))
          (rs.getD i 0) := by
  induction rs with
  | nil =>
    intro w i h
    simp at h
  | cons t ts ih =>
    intro w i hi
    cases i with
    | zero =>
      simp [detectorTrace, runWindow, List.getD_cons_zero]
    | succ i =>
      simp only [detectorTrace, List.getD_cons_succ]
      rw [ih _ i (by simpa using hi)]
      rfl

lemma detectorTrace_eq_stepAt (cap : Nat) (check : List ℚ → Bool)
    (rs : List ℚ) (i : Nat) (hi : i < rs.length) :
    (detectorTrace cap check [] rs).getD i default = stepAt cap check rs i :=
  detectorTrace_getD cap check rs [] i hi

/-- On the `i`-th insertion (0-indexed, `i ≥ 4`) the smoker alert flag is
exactly the endpoint test `rs[i-4] - rs[i] ≥ 15` on the received readings. -/
lemma smoker_alert_char (rs : List ℚ) (i : Nat) (h4 : 4 ≤ i)
    (hi : i < rs.length) :
    (stepAt 5 smokerCheck rs i).alerted =
      decide (rs.getD (i - 4) 0 - rs.getD i 0 ≥ TEMPERATURE_DROP_THRESHOLD) := by
  rw [stepAt_alerted_of_full 5 smokerCheck rs i (by norm_num) hi (by omega)]
  unfold smokerCheck
  have hlen : ((rs.take (i + 1)).drop (i + 1 - 5)).length = 5 := by
    rw [List.length_drop, List.length_take]
    omega
  rw [hlen, getD_drop, getD_drop]
  have e1 : i + 1 - 5 + 0 = i - 4 := by omega
  have e2 : i + 1 - 5 + (5 - 1) = i := by omega
  rw [e1, e2, getD_take (show i - 4 < i + 1 by omega),
    getD_take (show i < i + 1 by omega)]

/-- On the `i`-th insertion (0-indexed, `i ≥ 19`) the food alert flag is
exactly the spread test over the 20 most recent readings. -/
lemma food_alert_char (rs : List ℚ) (i : Nat) (h19 : 19 ≤ i)
    (hi : i < rs.length) :
    (stepAt 20 foodCheck rs i).alerted =
      decide (pyMax ((rs.drop (i - 19)).take 20) -
        pyMin ((rs.drop (i - 19)).take 20) ≤ TEMPERATURE_CHANGE_THRESHOLD) := by
  rw [stepAt_alerted_of_full 20 foodCheck rs i (by norm_num) hi (by omega)]
  have hseg : (rs.take (i + 1)).drop (i + 1 - 20) =
      (rs.drop (i - 19)).take 20 := by
    rw [List.drop_take]
    have e1 : i + 1 - (i + 1 - 20) = 20 := by omega
    have e2 : i + 1 - 20 = i - 19 := by omega
    rw [e1, e2]
  rw [hseg]
  rfl

/-- C1: for the Smoker detector (capacity 5, threshold 15), on every
insertion `i` with at least 5 readings received so far, the alert fires if
and only if the window's oldest entry minus its newest entry — that is,
`rs[i-4] - rs[i]` — is at least the threshold. -/
theorem smoker_alert_iff_endpoint_drop (rs : List ℚ) (i : Nat) (h4 : 4 ≤ i)
    (hi : i < rs.length) :
    (stepAt SMOKER_DEQUE_MAX_LENGTH smokerCheck rs i).alerted = true ↔
      rs.getD (i - 4) 0 - rs.getD i 0 ≥ TEMPERATURE_DROP_THRESHOLD := by
  have h5 : SMOKER_DEQUE_MAX_LENGTH = 5 := rfl
  rw [h5, smoker_alert_char rs i h4 hi, decide_eq_true_eq]

/-- Witness for C1, at the spec's concrete smoker scenario
`[225, 224, 223, 210, 208]`: `225 - 208 = 17 ≥ 15`, so the alert fires on
the 5th insertion. -/
theorem smoker_alert_iff_endpoint_drop_witness :
    (4 ≤ 4 ∧ 4 < ([225, 224, 223, 210, 208] : List ℚ).length) ∧
      ((stepAt SMOKER_DEQUE_MAX_LENGTH smokerCheck
          [225, 224, 223, 210, 208] 4).alerted = true ↔
        ([225, 224, 223, 210, 208] : List ℚ).getD (4 - 4) 0 -
          ([225, 224, 223, 210, 208] : List ℚ).getD 4 0 ≥
            TEMPERATURE_DROP_THRESHOLD) :=
  ⟨⟨by norm_num, by norm_num⟩,
    smoker_alert_iff_endpoint_drop [225, 224, 223, 210, 208] 4
      (by norm_num) (by norm_num)⟩

/-- C2: for the food detectors (capacity 20, threshold 1), on every
insertion `i` with at least 20 readings received so far, the alert fires if
and only if the full-window spread `max - min` of the 20 most recent
readings is at most the threshold.  Both `consumer_food_a.py` and
`consumer_food_b.py` use this capacity and predicate. -/
theorem food_alert_iff_window_spread (rs : List ℚ) (i : Nat) (h19 : 19 ≤ i)
    (hi : i < rs.length) :
    (stepAt FOOD_DEQUE_MAX_LENGTH foodCheck rs i).alerted = true ↔
      pyMax ((rs.drop (i - 19)).take 20) - pyMin ((rs.drop (i - 19)).take 20) ≤
        TEMPERATURE_CHANGE_THRESHOLD := by
  have h20 : FOOD_DEQUE_MAX_LENGTH = 20 := rfl
  rw [h20, food_alert_char rs i h19 hi, decide_eq_true_eq]

/-- Witness for C2, at the spec's concrete scenario: 19 readings at 150.0
followed by one at 150.5 give a spread of 0.5 ≤ 1, so the alert fires on
the 20th insertion. -/
theorem food_alert_iff_window_spread_witness :
    (19 ≤ 19 ∧
        19 < (List.replicate 19 (150 : ℚ) ++ [150.5]).length) ∧
      ((stepAt FOOD_DEQUE_MAX_LENGTH foodCheck
          (List.replicate 19 (150 : ℚ) ++ [150.5]) 19).alerted = true ↔
        pyMax (((List.replicate 19 (150 : ℚ) ++ [150.5]).drop (19 - 19)).take 20) -
          pyMin (((List.replicate 19 (150 : ℚ) ++ [150.5]).drop (19 - 19)).take 20) ≤
            TEMPERATURE_CHANGE_THRESHOLD) :=
  ⟨⟨by norm_num, by norm_num⟩,
    food_alert_iff_window_spread (List.replicate 19 (150 : ℚ) ++ [150.5]) 19
      (by norm_num) (by norm_num)⟩

/-- C3: for every detector configuration, the deque right after the `i`-th
append holds exactly `min (i+1) cap` entries, and at no prefix of the run
does the retained window exceed the capacity. -/
theorem window_length_invariant (cap : Nat) (check : List ℚ → Bool)
    (rs : List ℚ) (i j : Nat) (hcap : 1 ≤ cap) (hi : i < rs.length) :
    (stepAt cap check rs i).appended.length = min (i + 1) cap ∧
      (runWindow cap check [] (rs.take j)).length ≤ cap := by
  refine ⟨stepAt_appended_length cap check rs i hcap hi, ?_⟩
  rw [runWindow_closed cap check hcap, List.length_drop]
  omega

/-- Witness for C3, at the smoker configuration with six readings: after
the 6th insertion the appended deque holds `min 6 5 = 5` entries, and no
prefix exceeds the capacity. -/
theorem window_length_invariant_witness :
    (1 ≤ SMOKER_DEQUE_MAX_LENGTH ∧
        5 < ([1, 2, 3, 4, 5, 6] : List ℚ).length) ∧
      ((stepAt SMOKER_DEQUE_MAX_LENGTH smokerCheck [1, 2, 3, 4, 5, 6] 5).appended.length =
          min (5 + 1) SMOKER_DEQUE_MAX_LENGTH ∧
        (runWindow SMOKER_DEQUE_MAX_LENGTH smokerCheck []
            (([1, 2, 3, 4, 5, 6] : List ℚ).take 6)).length ≤
          SMOKER_DEQUE_MAX_LENGTH) :=
  ⟨⟨by norm_num [SMOKER_DEQUE_MAX_LENGTH], by norm_num⟩,
    window_length_invariant SMOKER_DEQUE_MAX_LENGTH smokerCheck
      [1, 2, 3, 4, 5, 6] 5 6 (by norm_num [SMOKER_DEQUE_MAX_LENGTH])
      (by norm_num)⟩

/-- C4: the predicate is evaluated exactly when the deque length equals the
capacity after the append — equivalently exactly when at least `cap`
readings have been received — and the evaluation is followed by a single
head eviction restoring length `cap - 1`; on a partially filled window the
deque is left untouched apart from the append. -/
theorem evaluation_once_per_fill (cap : Nat) (check : List ℚ → Bool)
    (rs : List ℚ) (i : Nat) (hcap : 1 ≤ cap) (hi : i < rs.length) :
    ((stepAt cap check rs i).evaluated = true ↔
        (stepAt cap check rs i).appended.length = cap) ∧
      ((stepAt cap check rs i).evaluated = true ↔ cap ≤ i + 1) ∧
      ((stepAt cap check rs i).evaluated = true →
        (stepAt cap check rs i).window = (stepAt cap check rs i).appended.tail ∧
          (stepAt cap check rs i).window.length = cap - 1) ∧
      ((stepAt cap check rs i).evaluated = false →
        (stepAt cap check rs i).window = (stepAt cap check rs i).appended) := by
  have hlen := stepAt_appended_length cap check rs i hcap hi
  have heval := stepAt_evaluated cap check rs i hcap hi
  refine ⟨?_, ?_, ?_, ?_⟩
  · rw [heval, hlen]
    constructor
    · intro hd
      have hc := of_decide_eq_true hd
      omega
    · intro hmin
      apply decide_eq_true
      omega
  · rw [heval]
    simp
  · intro he
    have hc : cap ≤ i + 1 := by
      rw [heval] at he
      exact of_decide_eq_true he
    refine ⟨stepAt_window_of_full cap check rs i hcap hi hc, ?_⟩
    rw [stepAt_window_of_full cap check rs i hcap hi hc, List.length_tail,
      hlen]
    omega
  · intro he
    have hc : i + 1 < cap := by
      rw [heval] at he
      have := of_decide_eq_false he
      omega
    exact stepAt_window_of_notfull cap check rs i hcap hi hc

/-- Witness for C4, at the smoker configuration on the 5th insertion of a
6-reading run: the predicate is evaluated there and one entry is evicted. -/
theorem evaluation_once_per_fill_witness :
    (1 ≤ SMOKER_DEQUE_MAX_LENGTH ∧
        4 < ([1, 2, 3, 4, 5, 6] : List ℚ).length) ∧
      (((stepAt SMOKER_DEQUE_MAX_LENGTH smokerCheck [1, 2, 3, 4, 5, 6] 4).evaluated = true ↔
          (stepAt SMOKER_DEQUE_MAX_LENGTH smokerCheck [1, 2, 3, 4, 5, 6] 4).appended.length =
            SMOKER_DEQUE_MAX_LENGTH) ∧
        ((stepAt SMOKER_DEQUE_MAX_LENGTH smokerCheck [1, 2, 3, 4, 5, 6] 4).evaluated = true ↔
          SMOKER_DEQUE_MAX_LENGTH ≤ 4 + 1) ∧
        ((stepAt SMOKER_DEQUE_MAX_LENGTH smokerCheck [1, 2, 3, 4, 5, 6] 4).evaluated = true →
          (stepAt SMOKER_DEQUE_MAX_LENGTH smokerCheck [1, 2, 3, 4, 5, 6] 4).window =
              (stepAt SMOKER_DEQUE_MAX_LENGTH smokerCheck [1, 2, 3, 4, 5, 6] 4).appended.tail ∧
            (stepAt SMOKER_DEQUE_MAX_LENGTH smokerCheck [1, 2, 3, 4, 5, 6] 4).window.length =
              SMOKER_DEQUE_MAX_LENGTH - 1) ∧
        ((stepAt SMOKER_DEQUE_MAX_LENGTH smokerCheck [1, 2, 3, 4, 5, 6] 4).evaluated = false →
          (stepAt SMOKER_DEQUE_MAX_LENGTH smokerCheck [1, 2, 3, 4, 5, 6] 4).window =
            (stepAt SMOKER_DEQUE_MAX_LENGTH smokerCheck [1, 2, 3, 4, 5, 6] 4).appended)) :=
  ⟨⟨by norm_num [SMOKER_DEQUE_MAX_LENGTH], by norm_num⟩,
    evaluation_once_per_fill SMOKER_DEQUE_MAX_LENGTH smokerCheck
      [1, 2, 3, 4, 5, 6] 4 (by norm_num [SMOKER_DEQUE_MAX_LENGTH])
      (by norm_num)⟩

set_option maxRecDepth 100000 in
/-- C8 counterexample: a strictly flat sequence of 20 readings at 150 —
every value far above the food threshold 1 — makes the food stall detector
raise an alert on the 20th insertion, so "feeding a strictly flat sequence
whose values are above the threshold never raises an alert" fails for the
Food A/B detectors (flat input is exactly what a stall detector reports). -/
theorem flat_sequence_alerts_food_detector :
    TEMPERATURE_CHANGE_THRESHOLD < 150 ∧
      (stepAt FOOD_DEQUE_MAX_LENGTH foodCheck
        (List.replicate 20 (150 : ℚ)) 19).alerted = true := by
  constructor
  · norm_num [TEMPERATURE_CHANGE_THRESHOLD]
  · have h20 : FOOD_DEQUE_MAX_LENGTH = 20 := rfl
    rw [h20, food_alert_char (List.replicate 20 (150 : ℚ)) 19 (by norm_num)
      (by simp)]
    have hmax : pyMax (((List.replicate 20 (150 : ℚ)).drop (19 - 19)).take 20) =
        150 := by decide
    have hmin : pyMin (((List.replicate 20 (150 : ℚ)).drop (19 - 19)).take 20) =
        150 := by decide
    rw [hmax, hmin]
    norm_num [TEMPERATURE_CHANGE_THRESHOLD]

/-- C8 (amended): for the Smoker detector, a strictly increasing sequence,
or a flat sequence whose constant value exceeds the threshold, never raises
an alert on any insertion. -/
theorem smoker_no_alert_on_increasing_or_flat (rs : List ℚ) (i : Nat)
    (hi : i < rs.length)
    (h : (∀ j k, j < k → k < rs.length → rs.getD j 0 < rs.getD k 0) ∨
      (∃ c : ℚ, TEMPERATURE_DROP_THRESHOLD < c ∧
        ∀ j, j < rs.length → rs.getD j 0 = c)) :
    (stepAt SMOKER_DEQUE_MAX_LENGTH smokerCheck rs i).alerted = false := by
  have h5 : SMOKER_DEQUE_MAX_LENGTH = 5 := rfl
  rw [h5]
  by_cases h4 : 4 ≤ i
  · rw [smoker_alert_char rs i h4 hi, decide_eq_false_iff_not]
    intro habs
    have hth : TEMPERATURE_DROP_THRESHOLD = 15 := rfl
    rcases h with hmono | ⟨c, hc, hflat⟩
    · have hlt : rs.getD (i - 4) 0 < rs.getD i 0 :=
        hmono (i - 4) i (by omega) hi
      rw [hth] at habs
      linarith
    · rw [hflat (i - 4) (by omega), hflat i hi, hth] at habs
      linarith
  · exact stepAt_alerted_of_notfull 5 smokerCheck rs i (by norm_num) hi
      (by omega)

/-- Witness for the amended C8: a flat run of six readings at 20 (above
the smoker threshold 15) never alerts; here checked at the 6th insertion. -/
theorem smoker_no_alert_on_increasing_or_flat_witness :
    (5 < (List.replicate 6 (20 : ℚ)).length) ∧
      (stepAt SMOKER_DEQUE_MAX_LENGTH smokerCheck
        (List.replicate 6 (20 : ℚ)) 5).alerted = false :=
  ⟨by norm_num,
    smoker_no_alert_on_increasing_or_flat (List.replicate 6 (20 : ℚ)) 5
      (by norm_num)
      (Or.inr ⟨20, by norm_num [TEMPERATURE_DROP_THRESHOLD], by decide⟩)⟩

/-- The ways one callback invocation can surface an anomaly:
`textAlert` is a call to `create_and_send_text_alert` with the given
message (SMS dispatch), `logOnly` is a bare `logger.warning` with no
dispatch, `silent` is no anomaly surfaced. -/
inductive AlertAction
  | silent
  | textAlert (message : String)
  | logOnly (message : String)
  deriving DecidableEq

/-- True exactly for actions that go through the SMS dispatcher
(`create_and_send_text_alert`). -/
def AlertAction.isDispatched : AlertAction → Bool
  | .textAlert _ => true
  | _ => false

/-- Post-parse body of `smoker_callback` in `consumer_smoker.py`: append,
evaluate on the exactly-full deque, build
the smoker alert f-string message
and dispatch it via `create_and_send_text_alert`, then pop the head.
`showRat` stands for Python's string rendering of the float `temp_diff`;
the source's literal has an encoding artifact (`Â°F`) rendered here as
`°F`. -/
def smokerProcess (showRat : ℚ → String) (w : List ℚ) (ts : String)
    (t : ℚ) : List ℚ × AlertAction :=
  let w1 := dequeAppend SMOKER_DEQUE_MAX_LENGTH w t
  if w1.length = SMOKER_DEQUE_MAX_LENGTH then
    let d := w1.getD 0 0 - w1.getD (w1.length - 1) 0
    if d ≥ TEMPERATURE_DROP_THRESHOLD then
      (w1.tail,
        AlertAction.textAlert
          ("Smoker Alert! Temperature dropped by " ++ showRat d ++
            "°F at " ++ ts))
    else (w1.tail, AlertAction.silent)
  else (w1, AlertAction.silent)

/-- Post-parse body of `food_b_callback` in `consumer_food_b.py`: append,
evaluate the spread on the exactly-full deque, build
`f"Food B Stall Alert! Temperature change ≤ 1°F at {timestamp}"` and
dispatch it via `create_and_send_text_alert`, then pop the head. -/
def foodBProcess (w : List ℚ) (ts : String) (t : ℚ) :
    List ℚ × AlertAction :=
  let w1 := dequeAppend FOOD_DEQUE_MAX_LENGTH w t
  if w1.length = FOOD_DEQUE_MAX_LENGTH then
    if pyMax w1 - pyMin w1 ≤ TEMPERATURE_CHANGE_THRESHOLD then
      (w1.tail,
        AlertAction.textAlert
          ("Food B Stall Alert! Temperature change ≤ 1°F at " ++ ts))
    else (w1.tail, AlertAction.silent)
  else (w1, AlertAction.silent)

/-- Post-parse body of `food_a_callback` in `consumer_food_a.py`: append,
evaluate the spread on the exactly-full deque, and on a stall only call
`logger.warning("Food A Stall Alert! Temperature change ≤ 1°F")` — there
is no `create_and_send_text_alert` call and the message carries no
timestamp (the callback does not even parse one). -/
def foodAProcess (w : List ℚ) (t : ℚ) : List ℚ × AlertAction :=
  let w1 := dequeAppend FOOD_DEQUE_MAX_LENGTH w t
  if w1.length = FOOD_DEQUE_MAX_LENGTH then
    if pyMax w1 - pyMin w1 ≤ TEMPERATURE_CHANGE_THRESHOLD then
      (w1.tail,
        AlertAction.logOnly ("Food A Stall Alert! Temperature change ≤ 1°F"))
    else (w1.tail, AlertAction.silent)
  else (w1, AlertAction.silent)

set_option maxRecDepth 100000 in
/-- C7 counterexample: on a full flat window the Food A predicate holds,
yet the surfaced action is a bare warning log — not a dispatcher call —
and its message contains no timestamp (the `foodAProcess` callback takes
none).  The deque state shown is the one actually reached after the first
19 insertions of the run. -/
theorem food_a_alert_not_dispatched :
    runWindow FOOD_DEQUE_MAX_LENGTH foodCheck [] (List.replicate 19 (150 : ℚ)) =
        List.replicate 19 (150 : ℚ) ∧
      (foodAProcess (List.replicate 19 (150 : ℚ)) 150).2 =
        AlertAction.logOnly ("Food A Stall Alert! Temperature change ≤ 1°F") ∧
      ((foodAProcess (List.replicate 19 (150 : ℚ)) 150).2).isDispatched =
        false := by
  have happ : dequeAppend FOOD_DEQUE_MAX_LENGTH (List.replicate 19 (150 : ℚ))
      150 = List.replicate 20 (150 : ℚ) := by decide
  have hmax : pyMax (List.replicate 20 (150 : ℚ)) = 150 := by decide
  have hmin : pyMin (List.replicate 20 (150 : ℚ)) = 150 := by decide
  have hproc : foodAProcess (List.replicate 19 (150 : ℚ)) 150 =
      ((List.replicate 20 (150 : ℚ)).tail,
        AlertAction.logOnly ("Food A Stall Alert! Temperature change ≤ 1°F")) := by
    unfold foodAProcess
    simp only [happ, hmax, hmin]
    rw [if_pos (by decide), if_pos (by norm_num [TEMPERATURE_CHANGE_THRESHOLD])]
  refine ⟨by decide, ?_, ?_⟩
  · rw [hproc]
  · rw [hproc]
    rfl

/-- C7 (amended): for the Smoker and Food B detectors, whenever the
anomaly predicate holds on the exactly-full deque, the surfaced action is
a `create_and_send_text_alert` dispatch whose message ends with the
timestamp of the reading whose insertion triggered the evaluation.  (Food
A is excluded: see the counterexample.) -/
theorem smoker_foodb_dispatch_tagged (showRat : ℚ → String) (w v : List ℚ)
    (ts us : String) (t u : ℚ) :
    ((dequeAppend SMOKER_DEQUE_MAX_LENGTH w t).length = SMOKER_DEQUE_MAX_LENGTH →
      smokerCheck (dequeAppend SMOKER_DEQUE_MAX_LENGTH w t) = true →
      ∃ pre,
        (smokerProcess showRat w ts t).2 = AlertAction.textAlert (pre ++ ts) ∧
          ((smokerProcess showRat w ts t).2).isDispatched = true) ∧
    ((dequeAppend FOOD_DEQUE_MAX_LENGTH v u).length = FOOD_DEQUE_MAX_LENGTH →
      foodCheck (dequeAppend FOOD_DEQUE_MAX_LENGTH v u) = true →
      ∃ pre,
        (foodBProcess v us u).2 = AlertAction.textAlert (pre ++ us) ∧
          ((foodBProcess v us u).2).isDispatched = true) := by
  constructor
  · intro hfull hcheck
    unfold smokerCheck at hcheck
    have hd := of_decide_eq_true hcheck
    refine ⟨"Smoker Alert! Temperature dropped by " ++
      showRat ((dequeAppend SMOKER_DEQUE_MAX_LENGTH w t).getD 0 0 -
        (dequeAppend SMOKER_DEQUE_MAX_LENGTH w t).getD
          ((dequeAppend SMOKER_DEQUE_MAX_LENGTH w t).length - 1) 0) ++
      "°F at ", ?_, ?_⟩
    · unfold smokerProcess
      rw [if_pos hfull, if_pos hd]
    · unfold smokerProcess
      rw [if_pos hfull, if_pos hd]
      rfl
  · intro hfull hcheck
    unfold foodCheck at hcheck
    have hd := of_decide_eq_true hcheck
    refine ⟨"Food B Stall Alert! Temperature change ≤ 1°F at ", ?_, ?_⟩
    · unfold foodBProcess
      rw [if_pos hfull, if_pos hd]
    · unfold foodBProcess
      rw [if_pos hfull, if_pos hd]
      rfl

set_option maxRecDepth 100000 in
/-- Witness for the amended C7: the smoker scenario `[225,224,223,210]`
plus `208` dispatches a text alert ending in the triggering timestamp, and
the Food B scenario of 19 readings at 150 plus one at 151 (spread 1 ≤ 1)
does likewise. -/
theorem smoker_foodb_dispatch_tagged_witness :
    (∃ pre,
        (smokerProcess (fun _ => ("17")) [225, 224, 223, 210] ("ts5") 208).2 =
            AlertAction.textAlert (pre ++ ("ts5")) ∧
          ((smokerProcess (fun _ => ("17")) [225, 224, 223, 210]
              ("ts5") 208).2).isDispatched = true) ∧
      (∃ pre,
        (foodBProcess (List.replicate 19 (150 : ℚ)) ("ts20") 151).2 =
            AlertAction.textAlert (pre ++ ("ts20")) ∧
          ((foodBProcess (List.replicate 19 (150 : ℚ))
              ("ts20") 151).2).isDispatched = true) := by
  have he1 : dequeAppend SMOKER_DEQUE_MAX_LENGTH
      ([225, 224, 223, 210] : List ℚ) 208 = [225, 224, 223, 210, 208] := by
    decide
  have hc1 : smokerCheck (dequeAppend SMOKER_DEQUE_MAX_LENGTH
      ([225, 224, 223, 210] : List ℚ) 208) = true := by
    rw [he1]
    unfold smokerCheck
    norm_num [TEMPERATURE_DROP_THRESHOLD]
  have he2 : dequeAppend FOOD_DEQUE_MAX_LENGTH
      (List.replicate 19 (150 : ℚ)) 151 =
      List.replicate 19 (150 : ℚ) ++ [151] := by decide
  have hmax2 : pyMax (List.replicate 19 (150 : ℚ) ++ [151]) = 151 := by decide
  have hmin2 : pyMin (List.replicate 19 (150 : ℚ) ++ [151]) = 150 := by decide
  have hc2 : foodCheck (dequeAppend FOOD_DEQUE_MAX_LENGTH
      (List.replicate 19 (150 : ℚ)) 151) = true := by
    rw [he2]
    unfold foodCheck
    rw [hmax2, hmin2]
    norm_num [TEMPERATURE_CHANGE_THRESHOLD]
  exact ⟨(smoker_foodb_dispatch_tagged (fun _ => ("17"))
        [225, 224, 223, 210] (List.replicate 19 (150 : ℚ)) ("ts5") ("ts20")
        208 151).1 (by rw [he1]; rfl) hc1,
    (smoker_foodb_dispatch_tagged (fun _ => ("17"))
        [225, 224, 223, 210] (List.replicate 19 (150 : ℚ)) ("ts5") ("ts20")
        208 151).2 (by rw [he2]; decide) hc2⟩

/-- Python exceptions that matter to the embedded control flow. -/
inductive PyErr
  | jsonDecodeError
  | attributeError
  | typeError
  | valueError
  | unboundLocalError
  deriving DecidableEq

/-- The notification transport environment for one dispatch attempt: which
SMTP call, if any, raises inside the `try` block of
`create_and_send_text_alert` (`consumer_smoker.py`, `consumer_food_b.py`,
`etexter.py` share this function verbatim). -/
inductive SmtpOutcome
  | connectFail
  | authFail
  | sendFail
  | allOk
  deriving DecidableEq

/-- The externally observable result of one `create_and_send_text_alert`
call: the log lines written, and the exception escaping the call, if any. -/
structure DispatchResult where
  logs : List String
  raised : Option PyErr
  deriving DecidableEq

/-- Model of `create_and_send_text_alert`.  The `try` block runs
`server = smtplib.SMTP(host, port)`, `starttls`, `login`, `send_message`,
then logs success; `except smtplib.SMTPAuthenticationError` and
`except Exception` log and swallow the exception; `finally` runs
`server.quit()`.  Crucially, when the constructor itself raises
(transport unreachable), the local name `server` was never bound, so the
`finally` clause raises `UnboundLocalError`, which escapes the function. -/
def create_and_send_text_alert (o : SmtpOutcome) : DispatchResult :=
  -- bound once `smtplib.SMTP(host, port)` returns, i.e. unless it raised
  let serverBound : Bool := o ≠ SmtpOutcome.connectFail
  -- log lines from the try body and the except handlers
  let logs : List String :=
    match o with
    | SmtpOutcome.allOk => [("Text alert sent successfully.")]
    | SmtpOutcome.authFail =>
        [("Authentication error. Verify your email and password.")]
    | SmtpOutcome.connectFail => [("Error: connect failed")]
    | SmtpOutcome.sendFail => [("Error: send failed")]
  -- finally: server.quit()
  if serverBound then { logs := logs, raised := none }
  else { logs := logs, raised := some PyErr.unboundLocalError }

/-- Tail of `smoker_callback` / `food_b_callback` around a dispatch: the
dispatch call is not wrapped in any `try`, and `ch.basic_ack` comes after
it, so the message is acknowledged only when the dispatch call returned
normally; an escaping exception propagates out of the callback (killing
the `start_consuming` loop).  Returns (acked, escaping exception). -/
def dispatchThenAck (o : SmtpOutcome) : Bool × Option PyErr :=
  match (create_and_send_text_alert o).raised with
  | none => (true, none)
  | some e => (false, some e)

/-- Model of `send_message` in `bbq_producer.py`: `basic_publish` is
wrapped in `try ... except Exception`, which logs and swallows every
failure, so no exception ever escapes. Returns (log line, escaping
exception). -/
def send_message (publishOutcome : Except PyErr Unit) :
    String × Option PyErr :=
  match publishOutcome with
  | Except.ok _ => (("Sent message"), none)
  | Except.error _ => (("Error sending message"), none)

/-- C6: the producer's per-publish failure isolation holds (no publish
outcome lets an exception escape `send_message`), and an
authentication-failing transport is indeed logged and swallowed by
`create_and_send_text_alert`; but an unreachable transport — the SMTP
constructor raising before `server` is bound — makes the `finally` clause
raise `UnboundLocalError`, which escapes the dispatch call, so the
callback does not acknowledge the message and the exception propagates
out of the consumer's callback, contradicting the claim that a dispatch
failure is always logged and skipped with the next reading processed
normally. -/
theorem dispatch_failure_isolation_violated :
    (∀ p : Except PyErr Unit, (send_message p).2 = none) ∧
      (create_and_send_text_alert SmtpOutcome.authFail).raised = none ∧
      (create_and_send_text_alert SmtpOutcome.connectFail).raised =
        some PyErr.unboundLocalError ∧
      dispatchThenAck SmtpOutcome.connectFail =
        (false, some PyErr.unboundLocalError) := by
  refine ⟨?_, rfl, rfl, rfl⟩
  intro p
  cases p <;> rfl

/-- Value of a decimal digit string, most significant first. -/
def digitsToNat (ds : List Char) : Nat :=
  ds.foldl (fun n c => 10 * n + (c.toNat - 48)) 0

/-- Split a leading run of decimal digits from the rest. -/
def takeDigits (cs : List Char) : List Char × List Char :=
  (cs.takeWhile Char.isDigit, cs.dropWhile Char.isDigit)

/-- Whitespace stripped by Python's `float()` and skipped by `json`. -/
def isPySpace (c : Char) : Bool :=
  c == (' ') || c == ('\t') || c == ('\n') || c == ('\r')

/-- Strip whitespace from both ends. -/
def trimBoth (cs : List Char) : List Char :=
  ((cs.dropWhile isPySpace).reverse.dropWhile isPySpace).reverse

/-- Scale a rational by a power of ten (exponent application), kept in
`Nat`-power form. -/
def applyExp (q : ℚ) (e : Int) : ℚ :=
  if 0 ≤ e then q * (10 : ℚ) ^ e.toNat else q / (10 : ℚ) ^ (-e).toNat

/-- Trailing-exponent clause of a Python float numeral: empty input means
exponent 0, otherwise the whole rest must be a well-formed exponent. -/
def pyExpPart (cs : List Char) : Option Int :=
  match cs with
  | [] => some 0
  | c :: r =>
    if c == ('e') || c == ('E') then
      let sr : Int × List Char :=
        match r with
        | ('+') :: rr => (1, rr)
        | ('-') :: rr => (-1, rr)
        | _ => (1, r)
      let ds := takeDigits sr.2
      if ds.1.isEmpty || !ds.2.isEmpty then none
      else some (sr.1 * (digitsToNat ds.1 : Int))
    else none

/-- Model of Python's `float(str)` on plain decimal numerals: optional
sign, integer digits, optional fractional part, optional exponent, with
surrounding whitespace stripped.  `inf`/`nan`, digit underscores and hex
floats are outside the fragment this repository feeds it. -/
def pyFloat (s : String) : Option ℚ :=
  let cs := trimBoth s.data
  let sgr : ℚ × List Char :=
    match cs with
    | ('+') :: r => (1, r)
    | ('-') :: r => (-1, r)
    | _ => (1, cs)
  let ipr := takeDigits sgr.2
  let fpr : List Char × List Char :=
    match ipr.2 with
    | ('.') :: rr => takeDigits rr
    | _ => ([], ipr.2)
  match pyExpPart fpr.2 with
  | none => none
  | some e =>
    if ipr.1.isEmpty && fpr.1.isEmpty then none
    else
      some (applyExp (sgr.1 * ((digitsToNat ipr.1 : ℚ) +
        (digitsToNat fpr.1 : ℚ) / (10 : ℚ) ^ fpr.1.length)) e)

/-- The producer's f-string payload (`bbq_producer.py`):
`f"{timestamp}, {temp}"` where `temp` is Python's rendering of the float
parsed from the CSV cell. -/
def producerPayload (ts temp : String) : String := ts ++ (", ") ++ temp

/-- Split on every occurrence of the two-character separator `", "`
(model of Python's `message.split(', ')`). -/
def splitCS : List Char → List Char → List (List Char)
  | acc, [] => [acc.reverse]
  | acc, [c] => [(c :: acc).reverse]
  | acc, c :: c2 :: r2 =>
    if c == (',') && c2 == (' ') then acc.reverse :: splitCS [] r2
    else splitCS (c :: acc) (c2 :: r2)

/-- String-level wrapper for `splitCS`. -/
def splitCommaSpace (s : String) : List String :=
  (splitCS [] s.data).map String.mk

/-- The parse shared by `smoker_callback` and `food_b_callback`:
`timestamp, temperature_str = message.split(', ')` followed by
`float(temperature_str)`.  Two-name unpacking raises `ValueError` unless
the split yields exactly two fields; a non-numeric temperature raises
`ValueError` in `float`. -/
def parseTimestampTemp (s : String) : Except PyErr (String × ℚ) :=
  match splitCommaSpace s with
  | [ts, tempStr] =>
    match pyFloat tempStr with
    | some q => Except.ok (ts, q)
    | none => Except.error PyErr.valueError
  | _ => Except.error PyErr.valueError

/-- JSON values, the possible results of Python's `json.loads`. -/
inductive Json
  | null
  | bool (b : Bool)
  | num (q : ℚ)
  | str (s : String)
  | arr (elems : List Json)
  | obj (members : List (String × Json))

/-- Structural characters of the JSON grammar, by code point. -/
def quoteC : Char := Char.ofNat 34

/-- Backslash, the JSON escape character. -/
def backslashC : Char := Char.ofNat 92

/-- Opening brace of a JSON object. -/
def lbraceC : Char := Char.ofNat 123

/-- Closing brace of a JSON object. -/
def rbraceC : Char := Char.ofNat 125

/-- Opening bracket of a JSON array. -/
def lbrackC : Char := Char.ofNat 91

/-- Closing bracket of a JSON array. -/
def rbrackC : Char := Char.ofNat 93

/-- Colon separating a JSON member's key from its value. -/
def colonC : Char := Char.ofNat 58

/-- Comma separating JSON items. -/
def commaC : Char := Char.ofNat 44

/-- Skip JSON insignificant whitespace. -/
def jsonWs (cs : List Char) : List Char := cs.dropWhile isPySpace

/-- Value of one hexadecimal digit. -/
def hexVal (c : Char) : Option Nat :=
  if c.isDigit then some (c.toNat - 48)
  else if ('a') ≤ c && c ≤ ('f') then some (c.toNat - 87)
  else if ('A') ≤ c && c ≤ ('F') then some (c.toNat - 55)
  else none

/-- Body of a JSON string after the opening quote: ordinary characters,
the standard escapes, and 4-hex-digit unicode escapes (surrogate-pair
recombination is elided); raw control characters are rejected, as in
`json.loads`. -/
def parseStringBody : Nat → List Char → List Char → Option (String × List Char)
  | 0, _, _ => none
  | fuel + 1, acc, cs =>
    match cs with
    | [] => none
    | c :: r =>
      if c == quoteC then some (String.mk acc.reverse, r)
      else if c == backslashC then
        match r with
        | [] => none
        | e :: r2 =>
          if e == quoteC then parseStringBody fuel (quoteC :: acc) r2
          else if e == backslashC then parseStringBody fuel (backslashC :: acc) r2
          else if e == ('/') then parseStringBody fuel (('/') :: acc) r2
          else if e == ('b') then parseStringBody fuel (Char.ofNat 8 :: acc) r2
          else if e == ('f') then parseStringBody fuel (Char.ofNat 12 :: acc) r2
          else if e == ('n') then parseStringBody fuel (Char.ofNat 10 :: acc) r2
          else if e == ('r') then parseStringBody fuel (Char.ofNat 13 :: acc) r2
          else if e == ('t') then parseStringBody fuel (Char.ofNat 9 :: acc) r2
          else if e == ('u') then
            match r2 with
            | h1 :: h2 :: h3 :: h4 :: r3 =>
              match hexVal h1, hexVal h2, hexVal h3, hexVal h4 with
              | some a, some b, some c2, some d =>
                parseStringBody fuel
                  (Char.ofNat (((a * 16 + b) * 16 + c2) * 16 + d) :: acc) r3
              | _, _, _, _ => none
            | _ => none
          else none
      else if c.toNat < 32 then none
      else parseStringBody fuel (c :: acc) r

/-- Optional exponent clause of a JSON number; unlike `pyExpPart` it does
not have to consume the whole rest. -/
def jsonExpPart (cs : List Char) : Option (Int × List Char) :=
  match cs with
  | [] => some (0, [])
  | c :: r =>
    if c == ('e') || c == ('E') then
      let sr : Int × List Char :=
        match r with
        | ('+') :: rr => (1, rr)
        | ('-') :: rr => (-1, rr)
        | _ => (1, r)
      let ds := takeDigits sr.2
      if ds.1.isEmpty then none
      else some (sr.1 * (digitsToNat ds.1 : Int), ds.2)
    else some (0, cs)

/-- A JSON number: optional minus, `0` or a nonzero-led digit run, an
optional dot-led fraction with at least one digit, an optional exponent. -/
def parseJsonNumber (cs : List Char) : Option (ℚ × List Char) :=
  let sgr : ℚ × List Char :=
    match cs with
    | ('-') :: r => (-1, r)
    | _ => (1, cs)
  match sgr.2 with
  | [] => none
  | c :: _ =>
    if !c.isDigit then none
    else
      let ipr :=
        if c == ('0') then ([c], sgr.2.tail) else takeDigits sgr.2
      match ipr.2 with
      | ('.') :: rr =>
        let fpr := takeDigits rr
        if fpr.1.isEmpty then none
        else
          match jsonExpPart fpr.2 with
          | some (e, r3) =>
            some (applyExp (sgr.1 * ((digitsToNat ipr.1 : ℚ) +
              (digitsToNat fpr.1 : ℚ) / (10 : ℚ) ^ fpr.1.length)) e, r3)
          | none => none
      | _ =>
        match jsonExpPart ipr.2 with
        | some (e, r3) =>
          some (applyExp (sgr.1 * (digitsToNat ipr.1 : ℚ)) e, r3)
        | none => none

mutual

/-- One JSON value, leading whitespace allowed, fuel-bounded. -/
def parseValue : Nat → List Char → Option (Json × List Char)
  | 0, _ => none
  | fuel + 1, cs =>
    match jsonWs cs with
    | [] => none
    | c :: r =>
      if c == lbraceC then
        match jsonWs r with
        | c2 :: r2 =>
          if c2 == rbraceC then some (Json.obj [], r2)
          else parseMembers fuel (c2 :: r2) []
        | [] => none
      else if c == lbrackC then
        match jsonWs r with
        | c2 :: r2 =>
          if c2 == rbrackC then some (Json.arr [], r2)
          else parseItems fuel (c2 :: r2) []
        | [] => none
      else if c == quoteC then
        match parseStringBody (r.length + 1) [] r with
        | some (s, r2) => some (Json.str s, r2)
        | none => none
      else
        match c :: r with
        | ('t') :: ('r') :: ('u') :: ('e') :: r2 => some (Json.bool true, r2)
        | ('f') :: ('a') :: ('l') :: ('s') :: ('e') :: r2 =>
          some (Json.bool false, r2)
        | ('n') :: ('u') :: ('l') :: ('l') :: r2 => some (Json.null, r2)
        | cs2 =>
          match parseJsonNumber cs2 with
          | some (q, r2) => some (Json.num q, r2)
          | none => none

/-- Comma-separated JSON array items up to the closing bracket. -/
def parseItems : Nat → List Char → List Json → Option (Json × List Char)
  | 0, _, _ => none
  | fuel + 1, cs, acc =>
    match parseValue fuel cs with
    | none => none
    | some (v, r) =>
      match jsonWs r with
      | c :: r2 =>
        if c == commaC then parseItems fuel r2 (v :: acc)
        else if c == rbrackC then some (Json.arr (v :: acc).reverse, r2)
        else none
      | [] => none

/-- Comma-separated JSON object members up to the closing brace. -/
def parseMembers : Nat → List Char → List (String × Json) →
    Option (Json × List Char)
  | 0, _, _ => none
  | fuel + 1, cs, acc =>
    match jsonWs cs with
    | c :: r =>
      if c == quoteC then
        match parseStringBody (r.length + 1) [] r with
        | some (k, r2) =>
          match jsonWs r2 with
          | c2 :: r3 =>
            if c2 == colonC then
              match parseValue fuel r3 with
              | some (v, r4) =>
                match jsonWs r4 with
                | c3 :: r5 =>
                  if c3 == commaC then parseMembers fuel r5 ((k, v) :: acc)
                  else if c3 == rbraceC then
                    some (Json.obj ((k, v) :: acc).reverse, r5)
                  else none
                | [] => none
              | none => none
            else none
          | [] => none
        | none => none
      else none
    | [] => none

end

/-- Model of Python's `json.loads`: parse one JSON value and require that
only whitespace remains; anything else raises `json.JSONDecodeError`. -/
def jsonLoads (s : String) : Option Json :=
  match parseValue (s.length + 1) s.data with
  | some (v, rest) =>
    match jsonWs rest with
    | [] => some v
    | _ => none
  | none => none

/-- A Python value held in the Food A deque: `message.get('temperature')`
yields a float, `None` (key absent, or JSON `null`), or some other
non-numeric object. -/
inductive PyVal
  | vnone
  | num (q : ℚ)
  | other
  deriving DecidableEq

/-- The Python object a JSON value becomes as seen by the deque
arithmetic.  A JSON `bool` maps to a Python `bool`, which is an `int`
subclass and hence numeric; strings, arrays, objects are non-numeric. -/
def jsonToPyVal : Json → PyVal
  | Json.null => PyVal.vnone
  | Json.bool b => PyVal.num (if b then 1 else 0)
  | Json.num q => PyVal.num q
  | _ => PyVal.other

/-- The deque entries as floats, when they all are floats. -/
def allFloats : List PyVal → Option (List ℚ)
  | [] => some []
  | PyVal.num q :: r => (allFloats r).map (fun qs => q :: qs)
  | _ => none

/-- Python's `max(deque)` feeding a subtraction, on the full (length-20)
Food A deque: when a `None` or other non-float is present, the
comparisons inside `max`/`min` or the subtraction afterwards raise
`TypeError`; on an all-float deque the computation is total. -/
def pyMaxQ (l : List PyVal) : Except PyErr ℚ :=
  match allFloats l with
  | some qs => Except.ok (pyMax qs)
  | none => Except.error PyErr.typeError

/-- Python's `min(deque)` under the same conditions as `pyMaxQ`. -/
def pyMinQ (l : List PyVal) : Except PyErr ℚ :=
  match allFloats l with
  | some qs => Except.ok (pyMin qs)
  | none => Except.error PyErr.typeError

/-- `food_a_callback` after a successful `json.loads`:
`message.get('temperature')` requires a dict (`AttributeError` otherwise)
and yields `None` for a missing key; the value — numeric or not — is
appended to the deque; on the exactly-full deque the
`max - min ≤ threshold` evaluation runs (raising `TypeError` when a
non-float is in the deque), then the head is popped.  The `Bool` is the
stall-alert flag. -/
def foodACallbackJ (w : List PyVal) (body : Json) :
    Except PyErr (List PyVal × Bool) :=
  match body with
  | Json.obj kvs =>
    let t : PyVal :=
      match kvs.lookup ("temperature") with
      | none => PyVal.vnone
      | some j => jsonToPyVal j
    let w1 := dequeAppend FOOD_DEQUE_MAX_LENGTH w t
    if w1.length = FOOD_DEQUE_MAX_LENGTH then
      match pyMaxQ w1, pyMinQ w1 with
      | Except.ok mx, Except.ok mn =>
        Except.ok (w1.tail, decide (mx - mn ≤ TEMPERATURE_CHANGE_THRESHOLD))
      | Except.error e, _ => Except.error e
      | _, Except.error e => Except.error e
    else Except.ok (w1, false)
  | _ => Except.error PyErr.attributeError

/-- A whole Food A run over already-decoded JSON payloads, stopping at the
first escaping exception. -/
def foodARunJ : List PyVal → List Json → Except PyErr (List PyVal)
  | w, [] => Except.ok w
  | w, b :: bs =>
    match foodACallbackJ w b with
    | Except.ok (w1, _) => foodARunJ w1 bs
    | Except.error e => Except.error e

/-- The front half of `food_a_callback` seen from the wire:
`json.loads(body)` then `message.get('temperature')`. -/
def foodAExtract (body : String) : Except PyErr PyVal :=
  match jsonLoads body with
  | none => Except.error PyErr.jsonDecodeError
  | some (Json.obj kvs) =>
    match kvs.lookup ("temperature") with
    | none => Except.ok PyVal.vnone
    | some j => Except.ok (jsonToPyVal j)
  | some _ => Except.error PyErr.attributeError

set_option maxRecDepth 100000 in
/-- C5 (code evaluated at the divergence): for a row with timestamp
`7/3/21 8:05` and smoker/food cell `150.0`, the producer publishes the
plain delimited payload `"7/3/21 8:05, 150.0"`; the parser shared by
`smoker_callback` and `food_b_callback` recovers the timestamp and
exactly the published temperature 150 from it, but `food_a_callback`
starts with `json.loads(body)`, which rejects that same payload, so the
Food A detector does not accept the producer's payloads. -/
theorem foodA_rejects_producer_payload :
    pyFloat ("150.0") = some 150 ∧
      parseTimestampTemp (producerPayload ("7/3/21 8:05") ("150.0")) =
        Except.ok (("7/3/21 8:05"), (150 : ℚ)) ∧
      foodAExtract (producerPayload ("7/3/21 8:05") ("150.0")) =
        Except.error PyErr.jsonDecodeError := by
  have hd1 : digitsToNat [('1'), ('5'), ('0')] = 150 := by decide
  have hd2 : digitsToNat [('0')] = 0 := by decide
  have hq : applyExp ((1 : ℚ) * ((digitsToNat [('1'), ('5'), ('0')] : ℚ) +
      (digitsToNat [('0')] : ℚ) / (10 : ℚ) ^ 1)) 0 = 150 := by
    rw [hd1, hd2]
    norm_num [applyExp]
  have hpf : pyFloat ("150.0") = some (applyExp ((1 : ℚ) *
      ((digitsToNat [('1'), ('5'), ('0')] : ℚ) +
        (digitsToNat [('0')] : ℚ) / (10 : ℚ) ^ 1)) 0) := rfl
  have hpt : parseTimestampTemp (producerPayload ("7/3/21 8:05") ("150.0")) =
      Except.ok (("7/3/21 8:05"), applyExp ((1 : ℚ) *
        ((digitsToNat [('1'), ('5'), ('0')] : ℚ) +
          (digitsToNat [('0')] : ℚ) / (10 : ℚ) ^ 1)) 0) := rfl
  refine ⟨?_, ?_, rfl⟩
  · rw [hpf, hq]
  · rw [hpt, hq]

/-- A payload that is a JSON object carrying a numeric `temperature`
member — the shape `food_a_callback` silently assumes. -/
def hasNumericTemperature : Json → Bool
  | Json.obj kvs =>
    match kvs.lookup ("temperature") with
    | some (Json.num _) => true
    | _ => false
  | _ => false

lemma mem_dequeAppend {α : Type} (maxlen : Nat) (w : List α) (t x : α)
    (h : x ∈ dequeAppend maxlen w t) : x ∈ w ++ [t] := by
  simp only [dequeAppend] at h
  split at h
  · exact List.drop_subset _ _ h
  · exact h

lemma allFloats_of_nums (l : List PyVal)
    (h : ∀ x ∈ l, ∃ q, x = PyVal.num q) :
    ∃ qs, allFloats l = some qs := by
  induction l with
  | nil => exact ⟨[], rfl⟩
  | cons x r ih =>
    obtain ⟨q, hq⟩ := h x (by simp)
    subst hq
    obtain ⟨qs, hqs⟩ := ih (fun y hy => h y (by simp [hy]))
    exact ⟨q :: qs, by simp [allFloats, hqs]⟩

lemma foodACallbackJ_ok_of_wellformed (w : List PyVal) (b : Json)
    (hw : ∀ x ∈ w, ∃ q, x = PyVal.num q)
    (hb : hasNumericTemperature b = true) :
    ∃ w1 flag, foodACallbackJ w b = Except.ok (w1, flag) ∧
      ∀ x ∈ w1, ∃ q, x = PyVal.num q := by
  cases b with
  | null => simp [hasNumericTemperature] at hb
  | bool b2 => simp [hasNumericTemperature] at hb
  | num q => simp [hasNumericTemperature] at hb
  | str s => simp [hasNumericTemperature] at hb
  | arr xs => simp [hasNumericTemperature] at hb
  | obj kvs =>
    simp only [hasNumericTemperature] at hb
    cases hlk : kvs.lookup ("temperature") with
    | none =>
      rw [hlk] at hb
      simp at hb
    | some j =>
      rw [hlk] at hb
      cases j with
      | null => simp at hb
      | bool b2 => simp at hb
      | str s => simp at hb
      | arr xs => simp at hb
      | obj ms => simp at hb
      | num q =>
        have hnums : ∀ x ∈ dequeAppend FOOD_DEQUE_MAX_LENGTH w (PyVal.num q),
            ∃ p, x = PyVal.num p := by
          intro x hx
          rcases List.mem_append.mp (mem_dequeAppend _ _ _ _ hx) with h | h
          · exact hw x h
          · simp at h
            exact ⟨q, h⟩
        simp only [foodACallbackJ]
        rw [hlk]
        simp only [jsonToPyVal]
        by_cases hfull :
            (dequeAppend FOOD_DEQUE_MAX_LENGTH w (PyVal.num q)).length =
              FOOD_DEQUE_MAX_LENGTH
        · obtain ⟨qs, hqs⟩ := allFloats_of_nums _ hnums
          rw [if_pos hfull]
          unfold pyMaxQ pyMinQ
          rw [hqs]
          refine ⟨_, _, rfl, ?_⟩
          intro x hx
          exact hnums x (List.tail_subset _ hx)
        · rw [if_neg hfull]
          exact ⟨_, _, rfl, hnums⟩

lemma foodARunJ_ok_of_wellformed (msgs : List Json) :
    ∀ (w : List PyVal), (∀ x ∈ w, ∃ q, x = PyVal.num q) →
      (∀ m ∈ msgs, hasNumericTemperature m = true) →
      ∃ wfin, foodARunJ w msgs = Except.ok wfin := by
  induction msgs with
  | nil =>
    intro w _ _
    exact ⟨w, rfl⟩
  | cons b bs ih =>
    intro w hw hmsgs
    obtain ⟨w1, flag, hcb, hw1⟩ := foodACallbackJ_ok_of_wellformed w b hw
      (hmsgs b (by simp))
    obtain ⟨wfin, hrun⟩ := ih w1 hw1 (fun m hm => hmsgs m (by simp [hm]))
    refine ⟨wfin, ?_⟩
    unfold foodARunJ
    rw [hcb]
    exact hrun

set_option maxRecDepth 100000 in
/-- C10: when every payload is a JSON object with a numeric `temperature`
member, no Food A run ever reaches an error; a well-formed JSON object
without that key (`{}`) has `None` appended to the deque instead of being
rejected, and a run in which such a payload is followed by 19 numeric
ones raises `TypeError` at the first full-window `max`/`min` evaluation. -/
theorem foodA_missing_key_inserts_none :
    (∀ msgs : List Json, (∀ m ∈ msgs, hasNumericTemperature m = true) →
      ∃ wfin, foodARunJ [] msgs = Except.ok wfin) ∧
      foodACallbackJ [] (Json.obj []) = Except.ok ([PyVal.vnone], false) ∧
      foodARunJ [] (Json.obj [] :: List.replicate 19
          (Json.obj [(("temperature"), Json.num 150)])) =
        Except.error PyErr.typeError := by
  refine ⟨?_, rfl, rfl⟩
  intro msgs h
  exact foodARunJ_ok_of_wellformed msgs [] (by simp) h

set_option maxRecDepth 100000 in
/-- Witness for C10: three well-formed payloads run without error. -/
theorem foodA_missing_key_inserts_none_witness :
    ∃ wfin, foodARunJ [] (List.replicate 3
        (Json.obj [(("temperature"), Json.num 150)])) = Except.ok wfin :=
  foodA_missing_key_inserts_none.1
    (List.replicate 3 (Json.obj [(("temperature"), Json.num 150)]))
    (by decide)

end SmartSmoker
